import Mathlib

/-!
Verification of the response-normalization and cost-aggregation pipeline of the
Car-Damage-Visualiser repository.

The development shallowly embeds, from the TypeScript source:
* the JSON payload selection and validation of `parseCostData`
  (services, src/unnamed/part_004 lines 28-58);
* the image-only response handler `handleImageOnlyApiResponse`
  (src/unnamed/part_004 lines 60-97);
* the response handling of the damage-analysis and repaired-preview
  generators actually imported by `App.tsx`
  (src/unnamed/part_004 lines 258-353 and 361-394);
* the orchestrator `handleAnalyze` and the view dispatch `renderContent`
  of `App.tsx`;
* the cost totals, narration summary and playback handler of
  `CostEstimationPanel.tsx`.

JavaScript strings are modelled as `String`/`List Char`; JavaScript numbers
are modelled as exact rationals (the claims under study are structural and
do not depend on floating-point rounding); `undefined`/`null` are modelled
with `Option`; a thrown `Error` is modelled as `Except.error` carrying the
message string built exactly as in the source.
-/

/-- Whitespace as used by JavaScript `String.trim` and the `\s` regex class
(ASCII subset; the Unicode space characters never occur in the payloads of
interest). -/
def jsWsChar (c : Char) : Bool :=
  c = ' ' || c = '\t' || c = '\n' || c = '\r' || c = '\x0b' || c = '\x0c'

/-- Whitespace accepted between tokens by `JSON.parse`. -/
def jsonWsChar (c : Char) : Bool :=
  c = ' ' || c = '\t' || c = '\n' || c = '\r'

/-- JavaScript `String.prototype.trim` on a character list. -/
def trimChars (l : List Char) : List Char :=
  ((l.dropWhile jsWsChar).reverse.dropWhile jsWsChar).reverse

/-- JavaScript `String.prototype.trim`. -/
def jsTrim (s : String) : String :=
  String.mk (trimChars s.data)

/-- JavaScript truthiness of a string (empty string is falsy). -/
def truthyS (s : String) : Bool :=
  !s.data.isEmpty

/-- JavaScript truthiness of a possibly absent string
(`undefined`/`null` and `""` are falsy). -/
def truthyOS (o : Option String) : Bool :=
  match o with
  | none => false
  | some s => truthyS s

/-- Index of the first occurrence of `pat` as a contiguous sublist, as found
by a JavaScript regex/`indexOf` scan (leftmost match). -/
def findSub (pat : List Char) : List Char → Option Nat
  | [] => if pat.isEmpty then some 0 else none
  | c :: rest =>
    if pat.isPrefixOf (c :: rest) then some 0
    else (findSub pat rest).map (· + 1)

/-- JSON values as produced by `JSON.parse`. Objects keep their members in
source order. -/
inductive Json where
  | null : Json
  | bool : Bool → Json
  | num : ℚ → Json
  | str : String → Json
  | arr : List Json → Json
  | obj : List (String × Json) → Json

/-- JavaScript truthiness of a parsed JSON value
(`null`, `false`, `0` and `""` are falsy). -/
def truthyJson (j : Json) : Bool :=
  match j with
  | .null => false
  | .bool b => b
  | .num q => q ≠ 0
  | .str s => truthyS s
  | .arr _ => true
  | .obj _ => true

/-- Value of a hexadecimal digit, for `\uXXXX` escapes. -/
def hexVal (c : Char) : Option Nat :=
  if c.isDigit then some (c.toNat - 48)
  else if 'a' ≤ c && c ≤ 'f' then some (c.toNat - 87)
  else if 'A' ≤ c && c ≤ 'F' then some (c.toNat - 55)
  else none

/-- Digit run to a natural number. -/
def digitsToNat (l : List Char) : Nat :=
  l.foldl (fun a c => a * 10 + (c.toNat - 48)) 0

/-- Body of a JSON string literal, after the opening quote. Produces the
decoded string and the rest of the input past the closing quote. Unescaped
control characters are rejected as in `JSON.parse`. (Surrogate pairs are not
recombined; no payload in this development uses them.) -/
def pStringBody : Nat → List Char → List Char → Option (String × List Char)
  | 0, _, _ => none
  | _ + 1, _, [] => none
  | fuel + 1, acc, c :: r =>
    if c = '"' then some (String.mk acc.reverse, r)
    else if c = '\\' then
      match r with
      | [] => none
      | e :: r2 =>
        if e = '"' then pStringBody fuel ('"' :: acc) r2
        else if e = '\\' then pStringBody fuel ('\\' :: acc) r2
        else if e = '/' then pStringBody fuel ('/' :: acc) r2
        else if e = 'b' then pStringBody fuel ('\x08' :: acc) r2
        else if e = 'f' then pStringBody fuel ('\x0c' :: acc) r2
        else if e = 'n' then pStringBody fuel ('\n' :: acc) r2
        else if e = 'r' then pStringBody fuel ('\r' :: acc) r2
        else if e = 't' then pStringBody fuel ('\t' :: acc) r2
        else if e = 'u' then
          match r2 with
          | h1 :: h2 :: h3 :: h4 :: r3 =>
            match hexVal h1, hexVal h2, hexVal h3, hexVal h4 with
            | some a, some b, some c2, some d =>
              pStringBody fuel (Char.ofNat (((a * 16 + b) * 16 + c2) * 16 + d) :: acc) r3
            | _, _, _, _ => none
          | _ => none
        else none
    else if c.toNat < 32 then none
    else pStringBody fuel (c :: acc) r

/-- JSON number literal (sign, integer part, optional fraction and exponent),
evaluated exactly over ℚ. -/
def pNumber (l : List Char) : Option (ℚ × List Char) :=
  let signed := match l with
    | '-' :: r => (true, r)
    | _ => (false, l)
  let neg := signed.1
  let l1 := signed.2
  match l1 with
  | [] => none
  | c :: rest =>
    if !c.isDigit then none
    else
      let intStep := if c = '0' then ([c], rest) else l1.span Char.isDigit
      let intVal : ℚ := (digitsToNat intStep.1 : ℚ)
      let fracStep : Option (ℚ × List Char) :=
        match intStep.2 with
        | '.' :: r =>
          let ds := r.span Char.isDigit
          if ds.1.isEmpty then none
          else some (intVal + (digitsToNat ds.1 : ℚ) / ((10 : ℚ) ^ ds.1.length), ds.2)
        | _ => some (intVal, intStep.2)
      match fracStep with
      | none => none
      | some (mant, l3) =>
        let expStep : Option (ℚ × List Char) :=
          match l3 with
          | 'e' :: r | 'E' :: r =>
            let esigned : Int × List Char := match r with
              | '+' :: rr => (1, rr)
              | '-' :: rr => (-1, rr)
              | _ => (1, r)
            let eds := esigned.2.span Char.isDigit
            if eds.1.isEmpty then none
            else some (mant * (10 : ℚ) ^ (esigned.1 * (digitsToNat eds.1 : Int)), eds.2)
          | _ => some (mant, l3)
        match expStep with
        | none => none
        | some (v, l4) => some ((if neg then -v else v), l4)

mutual

/-- One JSON value (with leading whitespace), returning the rest of the
input. Fuel strictly decreases on every recursive call; `parseJsonL` supplies
enough fuel for any input. -/
def pValue : Nat → List Char → Option (Json × List Char)
  | 0, _ => none
  | fuel + 1, l =>
    let l1 := l.dropWhile jsonWsChar
    match l1 with
    | '\x7b' :: r =>
      match r.dropWhile jsonWsChar with
      | '\x7d' :: r2 => some (Json.obj [], r2)
      | l2 => (pMembers fuel l2).map (fun p => (Json.obj p.1, p.2))
    | '[' :: r =>
      match r.dropWhile jsonWsChar with
      | ']' :: r2 => some (Json.arr [], r2)
      | l2 => (pElements fuel l2).map (fun p => (Json.arr p.1, p.2))
    | '"' :: r => (pStringBody (r.length + 1) [] r).map (fun p => (Json.str p.1, p.2))
    | 't' :: 'r' :: 'u' :: 'e' :: r => some (Json.bool true, r)
    | 'f' :: 'a' :: 'l' :: 's' :: 'e' :: r => some (Json.bool false, r)
    | 'n' :: 'u' :: 'l' :: 'l' :: r => some (Json.null, r)
    | _ => (pNumber l1).map (fun p => (Json.num p.1, p.2))

/-- Members of a JSON object, positioned at the first key, consuming the
closing brace. -/
def pMembers : Nat → List Char → Option (List (String × Json) × List Char)
  | 0, _ => none
  | fuel + 1, l =>
    match l with
    | '"' :: r =>
      match pStringBody (r.length + 1) [] r with
      | none => none
      | some (k, r1) =>
        match r1.dropWhile jsonWsChar with
        | ':' :: r2 =>
          match pValue fuel r2 with
          | none => none
          | some (v, r3) =>
            match r3.dropWhile jsonWsChar with
            | ',' :: r4 =>
              match pMembers fuel (r4.dropWhile jsonWsChar) with
              | some (kvs, r5) => some ((k, v) :: kvs, r5)
              | none => none
            | '\x7d' :: r4 => some ([(k, v)], r4)
            | _ => none
        | _ => none
    | _ => none

/-- Elements of a JSON array, positioned at the first element, consuming the
closing bracket. -/
def pElements : Nat → List Char → Option (List Json × List Char)
  | 0, _ => none
  | fuel + 1, l =>
    match pValue fuel l with
    | none => none
    | some (v, r) =>
      match r.dropWhile jsonWsChar with
      | ',' :: r2 =>
        match pElements fuel r2 with
        | some (vs, r3) => some (v :: vs, r3)
        | none => none
      | ']' :: r2 => some ([v], r2)
      | _ => none

end

/-- Model of `JSON.parse` on a character list: one value, then only trailing
whitespace. -/
def parseJsonL (l : List Char) : Option Json :=
  match pValue (2 * l.length + 2) l with
  | some (v, rest) => if (rest.dropWhile jsonWsChar).isEmpty then some v else none
  | none => none

/-- The capture of the first match of the regex
`/```json\s*([\s\S]*?)\s*```/` in `parseCostData`
(src/unnamed/part_004 line 31). The lazy capture together with the greedy
`\s*` on both sides means: locate the first occurrence of the literal
"```json", then everything up to the first following occurrence of "```",
with surrounding whitespace stripped. -/
def fencedCapture (l : List Char) : Option (List Char) :=
  match findSub ("```json".data) l with
  | none => none
  | some p =>
    let rest := l.drop (p + 7)
    match findSub ("```".data) rest with
    | none => none
    | some q => some (trimChars (rest.take q))

/-- The `jsonString` chosen by `parseCostData` (lines 31-42): the fenced
capture when present and non-empty (`if (jsonMatch && jsonMatch[1])` —
an empty capture is falsy), otherwise the whole trimmed text. -/
def selectPayload (l : List Char) : List Char :=
  match fencedCapture l with
  | some cap => if cap.isEmpty then trimChars l else cap
  | none => trimChars l

/-- Result of `JSON.parse` applied to the payload `parseCostData` selects. -/
def parsedPayload (text : String) : Option Json :=
  parseJsonL (selectPayload text.data)

/-- The uniform error thrown by `parseCostData` (line 56); every internal
failure is caught and rethrown as this message. -/
def costFormatError (text : String) : String :=
  "The AI returned an invalid format for the cost estimation. Raw response: \"" ++ text ++ "\""

/-- Does a parsed item carry the five required keys, i.e. does
`'part' in item && 'damage' in item && 'suggestion' in item &&
'costUSD' in item && 'costRWF' in item` evaluate to true (line 50)?
On a non-object the JavaScript `in` operator throws, which the enclosing
`try` turns into the same failure, so non-objects count as lacking the
keys. -/
def hasFiveKeys (j : Json) : Bool :=
  match j with
  | .obj kvs =>
    (kvs.map Prod.fst).contains "part" &&
    (kvs.map Prod.fst).contains "damage" &&
    (kvs.map Prod.fst).contains "suggestion" &&
    (kvs.map Prod.fst).contains "costUSD" &&
    (kvs.map Prod.fst).contains "costRWF"
  | _ => false

/-- Function `parseCostData` (src/unnamed/part_004 lines 28-58): select the payload
(fenced capture or raw trimmed text), `JSON.parse` it, require an array,
and if the array is non-empty require every item to carry the five keys.
The returned items are the parsed JSON values (the source merely casts). -/
def parseCostData (text : String) : Except String (List Json) :=
  match parsedPayload text with
  | some (Json.arr items) =>
    if !items.isEmpty && !(items.all hasFiveKeys) then .error (costFormatError text)
    else .ok items
  | some _ => .error (costFormatError text)
  | none => .error (costFormatError text)

/-- Wrapping a payload in a Markdown ```json fence. -/
def fenceWrap (t : String) : String :=
  "```json\n" ++ t ++ "\n```"

/-! ## Model response structures (subset of `GenerateContentResponse`) -/

/-- An inline binary part of a model response. -/
structure InlineData where
  mimeType : String
  data : String
deriving DecidableEq

/-- One part of a model response: inline image bytes and/or text. -/
structure ResponsePart where
  inlineData : Option InlineData
  text : Option String
deriving DecidableEq

/-- The content of a candidate. -/
structure ResponseContent where
  parts : List ResponsePart
deriving DecidableEq

/-- One candidate of a model response. -/
structure Candidate where
  content : ResponseContent
  finishReason : Option String
deriving DecidableEq

/-- The prompt feedback block of a model response. -/
structure PromptFeedback where
  blockReason : Option String
  blockReasonMessage : Option String
deriving DecidableEq

/-- A model response. `text` mirrors the SDK accessor `response.text`
(concatenated text parts), which the source only uses for diagnostics. -/
structure GenResponse where
  promptFeedback : Option PromptFeedback
  candidates : List Candidate
  text : Option String
deriving DecidableEq

/-- The data-URL built from an inline image part. -/
def dataUrl (d : InlineData) : String :=
  "data:" ++ d.mimeType ++ ";base64," ++ d.data

/-- Error message of the block branch of `handleImageOnlyApiResponse`
(src/unnamed/part_004 line 67). -/
def blockedMessage (reason : String) (message : Option String) : String :=
  "Request was blocked. Reason: " ++ reason ++ ". " ++ message.getD ""

/-- Steps 2-4 of `handleImageOnlyApiResponse` (lines 72-96): look for an
inline image part, otherwise surface a non-STOP finish reason, otherwise
report the missing image together with any trailing text. -/
def imageOnlyAfterBlockCheck (r : GenResponse) (context : String) : Except String String :=
  let firstCand := r.candidates.head?
  let imagePart := (firstCand.map (fun c => c.content.parts)).bind
    (fun ps => ps.find? (fun p => p.inlineData.isSome))
  match imagePart.bind (fun p => p.inlineData) with
  | some d => .ok (dataUrl d)
  | none =>
    let finishReason := firstCand.bind (fun c => c.finishReason)
    match finishReason with
    | some fr =>
      if truthyS fr && fr ≠ "STOP" then
        .error ("Image generation for " ++ context ++
          " stopped unexpectedly. Reason: " ++ fr ++
          ". This often relates to safety settings.")
      else
        .error ("The AI model did not return an image for the " ++ context ++ ". " ++
          (match r.text.map jsTrim with
           | some tf =>
             if truthyS tf then "The model responded with text: \"" ++ tf ++ "\""
             else "This can happen due to safety filters or if the request is too complex. Please try rephrasing your prompt to be more direct."
           | none => "This can happen due to safety filters or if the request is too complex. Please try rephrasing your prompt to be more direct."))
    | none =>
      .error ("The AI model did not return an image for the " ++ context ++ ". " ++
        (match r.text.map jsTrim with
         | some tf =>
           if truthyS tf then "The model responded with text: \"" ++ tf ++ "\""
           else "This can happen due to safety filters or if the request is too complex. Please try rephrasing your prompt to be more direct."
         | none => "This can happen due to safety filters or if the request is too complex. Please try rephrasing your prompt to be more direct."))

/-- Function `handleImageOnlyApiResponse` (src/unnamed/part_004 lines 60-97):
check `promptFeedback?.blockReason` first (a present but empty reason is
falsy in JavaScript and is skipped), then fall through to the image /
finish-reason / text checks. -/
def handleImageOnlyApiResponse (r : GenResponse) (context : String) : Except String String :=
  match r.promptFeedback with
  | some fb =>
    match fb.blockReason with
    | some reason =>
      if reason.data.isEmpty then imageOnlyAfterBlockCheck r context
      else .error (blockedMessage reason fb.blockReasonMessage)
    | none => imageOnlyAfterBlockCheck r context
  | none => imageOnlyAfterBlockCheck r context

/-! ## Response handling of the service functions imported by `App.tsx`
(src/unnamed/part_004 lines 258-353 and 361-394) -/

/-- Remove every occurrence of `pat` (leftmost, non-overlapping), as
`String.prototype.replace` with a `/g` regex and an empty replacement. -/
def removeAllAux : Nat → List Char → List Char → List Char
  | 0, _, l => l
  | _ + 1, _, [] => []
  | fuel + 1, pat, c :: rest =>
    if !pat.isEmpty && pat.isPrefixOf (c :: rest) then
      removeAllAux fuel pat ((c :: rest).drop pat.length)
    else
      c :: removeAllAux fuel pat rest

/-- JavaScript `text.replace(pat-as-global-regex, '')`. -/
def removeAll (pat : List Char) (l : List Char) : List Char :=
  removeAllAux (l.length + 1) pat l

/-- Match of the regex `/\{[\s\S]*\}/` (part_004 line 335): from the first
opening brace to the last closing brace, provided the closing brace comes
after the opening one (the quantifier is greedy). -/
def braceExtract (l : List Char) : Option (List Char) :=
  match l.findIdx? (fun c => c = '\x7b') with
  | none => none
  | some i =>
    match l.reverse.findIdx? (fun c => c = '\x7d') with
    | none => none
    | some k =>
      let j := l.length - 1 - k
      if i < j then some ((l.drop i).take (j - i + 1)) else none

/-- Text-part handling inside the damage-analysis response loop
(part_004 lines 329-344): strip every "```json" and "```", trim, try
`JSON.parse`; on failure fall back to the brace-delimited substring of the
original text and try again. `none` means `analysis` keeps its previous
value. -/
def v2ParseText (txt : String) : Option Json :=
  let cleaned := trimChars (removeAll ("```".data) (removeAll ("```json".data) txt.data))
  match parseJsonL cleaned with
  | some j => some j
  | none =>
    match braceExtract txt.data with
    | some seg => parseJsonL seg
    | none => none

/-- One step of the part loop (part_004 lines 325-345): an inline-data part
overwrites `annotatedImage`; otherwise a non-empty text part overwrites
`analysis` when it parses. -/
def damagePartsStep (acc : Option String × Option Json) (p : ResponsePart) :
    Option String × Option Json :=
  match p.inlineData with
  | some d => (some (dataUrl d), acc.2)
  | none =>
    match p.text with
    | some txt =>
      if truthyS txt then
        match v2ParseText txt with
        | some j => (acc.1, some j)
        | none => acc
      else acc
    | none => acc

/-- Failure message of the damage-analysis response handling
(part_004 line 349). -/
def damageAnalysisError : String :=
  "The AI model did not return the expected annotated image and analysis data. Please try again."

/-- Response handling of `generateDamageAnalysis` as imported by `App.tsx`
(src/unnamed/part_004 lines 321-352): fold the part loop over the first
parts of the first candidate, then require a truthy annotated image and a truthy
analysis. There is no `promptFeedback` block check and no per-item schema
validation on this path. -/
def handleDamageAnalysisResponse (r : GenResponse) : Except String (String × Json) :=
  let acc :=
    match r.candidates with
    | [] => (none, none)
    | c :: _ => c.content.parts.foldl damagePartsStep (none, none)
  match acc with
  | (some a, some j) =>
    if truthyS a && truthyJson j then .ok (a, j) else .error damageAnalysisError
  | _ => .error damageAnalysisError

/-- Failure message of the repaired-preview response handling
(part_004 line 393). -/
def repairedPreviewError : String :=
  "The AI model did not return a repaired image preview. Please try again."

/-- Response handling of `generateRepairedPreview` as imported by `App.tsx`
(src/unnamed/part_004 lines 384-393): return the data URL of the first
inline-data part of the first candidate; no block check is performed. -/
def handleRepairedPreviewResponse (r : GenResponse) : Except String String :=
  match r.candidates with
  | [] => .error repairedPreviewError
  | c :: _ =>
    match (c.content.parts.find? (fun p => p.inlineData.isSome)).bind
        (fun p => p.inlineData) with
    | some d => .ok (dataUrl d)
    | none => .error repairedPreviewError

/-! ## Domain model (`types.ts`) and App state (`App.tsx`)

`costUSD`/`costRWF` are declared as `number` in `types.ts`, but the model
response is cast into the type without field validation, so at runtime a
field can be absent; the `cost.costUSD || 0` defaulting in the panel
acknowledges this. Absence is modelled with `Option`. -/

/-- Structure `RepairCost` of `types.ts`. -/
structure RepairCost where
  part : String
  damage : String
  suggestion : String
  costUSD : Option ℚ
  costRWF : Option ℚ
deriving DecidableEq

/-- Structure `VehicleInfo` of `types.ts`. -/
structure VehicleInfo where
  make : String
  model : String
  year : String
deriving DecidableEq

/-- Structure `DamageAnalysis` of `types.ts`. -/
structure DamageAnalysis where
  vehicle : VehicleInfo
  costs : List RepairCost
deriving DecidableEq

/-- The resolved value of `generateDamageAnalysis` as consumed by
`App.tsx` (`{ annotatedImage, analysis }`). -/
structure AnalysisSuccess where
  annotatedImage : String
  analysis : DamageAnalysis
deriving DecidableEq

/-- The React state of `App` (`App.tsx` lines 124-131). `originalImage`
stands for the `{file, url}` object (represented by its URL; its truthiness
is object truthiness, i.e. presence). -/
structure AppState where
  originalImage : Option String
  annotatedImage : Option String
  repairedImage : Option String
  costData : Option (List RepairCost)
  vehicleInfo : Option VehicleInfo
  isLoading : Bool
  error : Option String
deriving DecidableEq

/-- The state of `App` before any submission. -/
def initialAppState : AppState :=
  { originalImage := none, annotatedImage := none, repairedImage := none,
    costData := none, vehicleInfo := none, isLoading := false, error := none }

/-- The synchronous prelude of `handleAnalyze` (`App.tsx` lines 148-159):
set loading, clear previous results and error, install the new original
image. It runs before the two generation requests are issued. -/
def handleAnalyzeStart (s : AppState) (imgUrl : String) : AppState :=
  { s with
    isLoading := true,
    error := none,
    annotatedImage := none,
    repairedImage := none,
    costData := none,
    vehicleInfo := none,
    originalImage := some imgUrl }

/-- The join of the two settled outcomes (`App.tsx` lines 162-196):
`Promise.allSettled` of the analysis and repair requests, storing each
data of each fulfilled branch, building a per-branch error message for each
rejected branch, combining both with `'; '` into the caught error, and
clearing the loading flag. -/
def handleAnalyzeJoin (s : AppState) (analysisResult : Except String AnalysisSuccess)
    (repairResult : Except String String) : AppState :=
  let s1 :=
    match analysisResult with
    | .ok v =>
      { s with
        annotatedImage := some v.annotatedImage,
        costData := some v.analysis.costs,
        vehicleInfo := some v.analysis.vehicle }
    | .error _ => s
  let analysisError : Option String :=
    match analysisResult with
    | .ok _ => none
    | .error e => some ("Analysis Failed: " ++ e)
  let s2 :=
    match repairResult with
    | .ok url => { s1 with repairedImage := some url }
    | .error _ => s1
  let repairError : Option String :=
    match repairResult with
    | .ok _ => none
    | .error e => some ("Repair Preview Failed: " ++ e)
  let errs := ([analysisError, repairError].filterMap id)
  let s3 :=
    if errs.isEmpty then s2
    else { s2 with error := some ("Failed to analyze the image. " ++ String.intercalate "; " errs) }
  { s3 with isLoading := false }

/-- A complete run of `handleAnalyze` for one submission whose two requests
settle with the given outcomes. -/
def handleAnalyze (s : AppState) (imgUrl : String)
    (analysisResult : Except String AnalysisSuccess)
    (repairResult : Except String String) : AppState :=
  handleAnalyzeJoin (handleAnalyzeStart s imgUrl) analysisResult repairResult

/-- The view `renderContent` chooses (`App.tsx` lines 209-266). -/
inductive AppView where
  | loadingView
  | errorView (msg : String)
  | resultsView (original annotated repaired : String)
      (panel : Option (List RepairCost × VehicleInfo))
  | startScreen
deriving DecidableEq

/-- Function `renderContent` (`App.tsx` lines 209-266): loading first, then the
error view whenever `error` is truthy, then the results view when the
original-image object and both generated image strings are truthy; the
cost panel additionally needs `costData` and `vehicleInfo` to be present
(an empty cost array is still truthy). -/
def renderContent (s : AppState) : AppView :=
  if s.isLoading then .loadingView
  else if truthyOS s.error then .errorView (s.error.getD "")
  else
    match s.originalImage, s.annotatedImage, s.repairedImage with
    | some o, some a, some r =>
      if truthyS a && truthyS r then
        .resultsView o a r
          (match s.costData, s.vehicleInfo with
           | some cd, some vi => some (cd, vi)
           | _, _ => none)
      else .startScreen
    | _, _, _ => .startScreen

/-! ## Cost aggregation and narration (`CostEstimationPanel.tsx`) -/

/-- The per-currency totals object (`CostEstimationPanel.tsx` lines
100-107). -/
structure CostTotals where
  usd : ℚ
  rwf : ℚ
deriving DecidableEq

/-- The `totals` reduce of the panel (lines 100-107): each item adds
`cost.costUSD || 0` and `cost.costRWF || 0` (absent or null defaults to 0;
`0 || 0` is 0 as well, so `Option.getD 0` matches `|| 0` on numbers). -/
def computeTotals (costs : List RepairCost) : CostTotals :=
  costs.foldl
    (fun acc c => { usd := acc.usd + c.costUSD.getD 0, rwf := acc.rwf + c.costRWF.getD 0 })
    { usd := 0, rwf := 0 }

/-- JavaScript addition over possibly-absent numbers: `acc + undefined`
is `NaN`, modelled as `none`, which then poisons the whole sum. -/
def jsAdd (a b : Option ℚ) : Option ℚ :=
  match a, b with
  | some x, some y => some (x + y)
  | _, _ => none

/-- The `totalCost` reduce inside `generateDiagnosisSummary` (line 40):
`costs.reduce((acc, cost) => acc + cost.costUSD, 0)` — no `|| 0`
defaulting, so an absent `costUSD` makes the total `NaN`. -/
def diagTotalCost (costs : List RepairCost) : Option ℚ :=
  costs.foldl (fun acc c => jsAdd acc c.costUSD) (some 0)

/-- JavaScript `Math.round`: round half away from zero toward positive infinity. -/
def jsRound (q : ℚ) : ℤ :=
  ⌊q + 1 / 2⌋

/-- Rendering of `Math.round(totalCost)` in the template literal
(line 50); a `NaN` total renders as "NaN". -/
def renderRound (total : Option ℚ) : String :=
  match total with
  | some q => toString (jsRound q)
  | none => "NaN"

/-- The closing sentence of the narration (line 50). -/
def diagnosisClosing (total : Option ℚ) : String :=
  "The total estimated cost for all repairs is approximately " ++
    renderRound total ++ " US dollars."

/-- One per-item sentence of the narration (line 47);
`cost.suggestion.toLowerCase()` is modelled with `String.toLower`. -/
def diagnosisItemSentence (c : RepairCost) : String :=
  "The " ++ c.part ++ " has " ++ c.damage ++ ". My suggestion is to " ++
    c.suggestion.toLower ++ " this part. "

/-- Function `generateDiagnosisSummary` (`CostEstimationPanel.tsx` lines 37-52):
empty list short-circuits to a fixed sentence; otherwise an opening
sentence with singular/plural part count, one sentence per item, and the
closing rounded total. -/
def generateDiagnosisSummary (costs : List RepairCost) (vehicle : VehicleInfo) : String :=
  if costs.isEmpty then "No damage was detected."
  else
    let vehicleName := vehicle.year ++ " " ++ vehicle.make ++ " " ++ vehicle.model
    let partCount := costs.length
    let opening := "Analysis for the " ++ vehicleName ++ ". I\x27ve detected damage on " ++
      toString partCount ++ " " ++ (if partCount > 1 then "parts" else "part") ++ ". "
    opening ++ String.join (costs.map diagnosisItemSentence) ++
      diagnosisClosing (diagTotalCost costs)

/-! ## Playback state machine (`CostEstimationPanel.tsx` lines 24-88,
130-137) -/

/-- Type `PlaybackState` (line 24). -/
inductive PlaybackState where
  | idle
  | loading
  | playing
  | error
deriving DecidableEq

/-- The `HTMLAudioElement` held in `audioPlayer`: its source URL, current
position and paused flag. -/
structure AudioElement where
  url : String
  currentTime : ℚ
  paused : Bool
deriving DecidableEq

/-- The component state relevant to playback: `playbackState` and the
cached `audioPlayer` (lines 27-28). -/
structure NarrationSession where
  playbackState : PlaybackState
  audioPlayer : Option AudioElement
deriving DecidableEq

/-- Outcome of one invocation of `handlePlayDiagnosis`: either it finishes
synchronously, or it has entered `loading` and awaits the speech-synthesis
response (`awaitSynthesis` is the only constructor that issues a synthesis
request). `emitted` records the `setPlaybackState` calls in order. -/
inductive PlayStep where
  | done (s : NarrationSession) (emitted : List PlaybackState)
  | awaitSynthesis (s : NarrationSession) (emitted : List PlaybackState)
deriving DecidableEq

/-- Function `handlePlayDiagnosis` (lines 54-88), synchronous portion: from
`playing` with a player, stop (pause, reset position, back to `idle`);
otherwise with a cached player, replay it and go to `playing`; otherwise
enter `loading` and issue the synthesis request. -/
def handlePlayDiagnosis (s : NarrationSession) : PlayStep :=
  match s.playbackState, s.audioPlayer with
  | .playing, some p =>
    .done { playbackState := .idle, audioPlayer := some { p with currentTime := 0, paused := true } }
      [.idle]
  | _, some p =>
    .done { playbackState := .playing, audioPlayer := some { p with paused := false } }
      [.playing]
  | _, none =>
    .awaitSynthesis { playbackState := .loading, audioPlayer := none } [.loading]

/-- Resumption after the synthesis request settles (lines 74-87): on
success a fresh audio element is created, played from the start and
cached, and the state becomes `playing`; on failure the state becomes
`error`. -/
def resumeSynthesis (s : NarrationSession) (result : Except Unit String) :
    NarrationSession × List PlaybackState :=
  match result with
  | .ok url =>
    ({ playbackState := .playing, audioPlayer := some { url := url, currentTime := 0, paused := false } },
     [.playing])
  | .error _ => ({ s with playbackState := .error }, [.error])

/-- The `onended` handler (line 77): playback reaching its end returns to
`idle`. -/
def audioEnded (s : NarrationSession) : NarrationSession :=
  { s with playbackState := .idle }

/-- The `onerror` handler (line 78). -/
def audioErrored (s : NarrationSession) : NarrationSession :=
  { s with playbackState := .error }

/-- A click on the play button (lines 130-137): the button carries
`disabled={playbackState === 'loading'}`, so a click while `loading` never
invokes `handlePlayDiagnosis`. -/
def clickPlayButton (s : NarrationSession) : PlayStep :=
  if s.playbackState = .loading then .done s []
  else handlePlayDiagnosis s

/-! ## Concrete fixtures used by witnesses and counterexamples -/

/-- A response carrying an explicit block reason together with a full set
of usable parts (an inline image and a valid vehicle/costs JSON text). -/
def blockedResponse : GenResponse :=
  ⟨some ⟨some "SAFETY", some "Blocked for safety reasons."⟩,
   [⟨⟨[⟨some ⟨"image/png", "AAA"⟩, none⟩,
       ⟨none, some "\x7b\"vehicle\":\x7b\"make\":\"A\",\"model\":\"B\",\"year\":\"2020\"\x7d,\"costs\":[]\x7d"⟩]⟩,
     some "STOP"⟩],
   some "ignored"⟩

/-- The parsed analysis JSON carried by `blockedResponse`. -/
def vehicleJsonValue : Json :=
  .obj [("vehicle", .obj [("make", .str "A"), ("model", .str "B"), ("year", .str "2020")]),
        ("costs", .arr [])]

/-- A cost-array payload whose single item carries only the `part` key. -/
def missingKeyText : String := "[\x7b\"part\":\"bumper\"\x7d]"

/-- A response whose analysis JSON contains a cost item lacking four of the
five required keys. -/
def unvalidatedCostsResponse : GenResponse :=
  ⟨none,
   [⟨⟨[⟨some ⟨"image/png", "AAA"⟩, none⟩,
       ⟨none, some "\x7b\"vehicle\":\x7b\"make\":\"A\",\"model\":\"B\",\"year\":\"2020\"\x7d,\"costs\":[\x7b\"part\":\"bumper\"\x7d]\x7d"⟩]⟩,
     some "STOP"⟩],
   none⟩

/-- A valid cost-array payload whose string content contains three
consecutive backticks. -/
def backtickPayload : String :=
  "[\x7b\"part\":\"a```b\",\"damage\":\"d\",\"suggestion\":\"s\",\"costUSD\":1,\"costRWF\":2\x7d]"

/-- A resolved damage-analysis value, submission A. -/
def sampleAnalysisA : AnalysisSuccess :=
  { annotatedImage := "data:annotated-A",
    analysis := { vehicle := { make := "Toyota", model := "RAV4", year := "2015" },
                  costs := [{ part := "bumper", damage := "dent", suggestion := "Repair",
                              costUSD := some 500, costRWF := some 650000 }] } }

/-- A resolved damage-analysis value, submission B. -/
def sampleAnalysisB : AnalysisSuccess :=
  { annotatedImage := "data:annotated-B",
    analysis := { vehicle := { make := "Kia", model := "Sportage", year := "2021" },
                  costs := [] } }

/-- Final state of the interleaving: submission A starts, submission B
starts, the requests of B settle first, then the stale requests of A
settle last. Every phase is an atomic step of the single-threaded event
loop; the awaits between them admit exactly this interleaving. -/
def staleOverwriteFinal : AppState :=
  handleAnalyzeJoin
    (handleAnalyzeJoin
      (handleAnalyzeStart (handleAnalyzeStart initialAppState "blob:carA") "blob:carB")
      (.ok sampleAnalysisB) (.ok "data:repaired-B"))
    (.ok sampleAnalysisA) (.ok "data:repaired-A")

/-- The cost list of the scenario in the specification: one bumper item at
500 USD / 650000 RWF. -/
def bumperCostList : List RepairCost :=
  [{ part := "bumper", damage := "dented", suggestion := "Repair",
     costUSD := some 500, costRWF := some 650000 }]

/-! ## Helper lemmas -/

theorem intercalate_singleton (s x : String) : String.intercalate s [x] = x := rfl

theorem intercalate_pair (s x y : String) : String.intercalate s [x, y] = x ++ s ++ y := rfl

theorem truthyS_append_left (a b : String) (h : a.data ≠ []) : truthyS (a ++ b) = true := by
  simp [truthyS, String.data_append, h]

theorem append_ne_empty_left (a b : String) (h : a.data ≠ []) : a ++ b ≠ "" := by
  intro hc
  have hd := congrArg String.data hc
  rw [String.data_append] at hd
  simp at hd
  exact h hd.1

theorem computeTotals_foldl_eq (costs : List RepairCost) (u r : ℚ) :
    costs.foldl
      (fun acc c => { usd := acc.usd + c.costUSD.getD 0, rwf := acc.rwf + c.costRWF.getD 0 })
      (CostTotals.mk u r)
      = ⟨u + (costs.map (fun c => c.costUSD.getD 0)).sum,
         r + (costs.map (fun c => c.costRWF.getD 0)).sum⟩ := by
  induction costs generalizing u r with
  | nil => simp
  | cons c cs ih => simp [ih, add_assoc]

theorem computeTotals_eq (costs : List RepairCost) :
    computeTotals costs
      = ⟨(costs.map (fun c => c.costUSD.getD 0)).sum,
         (costs.map (fun c => c.costRWF.getD 0)).sum⟩ := by
  simpa [computeTotals] using computeTotals_foldl_eq costs 0 0

theorem diagTotal_foldl_eq (costs : List RepairCost) (q : ℚ)
    (h : ∀ c ∈ costs, c.costUSD.isSome) :
    costs.foldl (fun acc c => jsAdd acc c.costUSD) (some q)
      = some (q + (costs.map (fun c => c.costUSD.getD 0)).sum) := by
  induction costs generalizing q with
  | nil => simp
  | cons c cs ih =>
    obtain ⟨x, hx⟩ := Option.isSome_iff_exists.mp (h c (by simp))
    rw [List.foldl_cons]
    have hstep : jsAdd (some q) c.costUSD = some (q + x) := by rw [hx]; rfl
    rw [hstep, ih _ (fun d hd => h d (by simp [hd]))]
    simp [hx, add_assoc]

theorem cons_isPrefixOf_cons_eq (a b : Char) (as bs : List Char) :
    (a :: as).isPrefixOf (b :: bs) = (a == b && as.isPrefixOf bs) := rfl

theorem parseJsonL_btick_head (rest : List Char) : parseJsonL ('\x60' :: rest) = none := rfl

theorem findSub_btick_none (ps l : List Char) (h : ∀ c ∈ l, c ≠ '\x60') :
    findSub ('\x60' :: ps) l = none := by
  induction l with
  | nil => rfl
  | cons c rest ih =>
    have hc : ('\x60' == c) = false := by
      have := h c (List.Mem.head _)
      simp [BEq.beq]
      intro hcc
      exact this hcc.symm
    rw [findSub, cons_isPrefixOf_cons_eq, hc]
    simp only [Bool.false_and, if_false]
    rw [ih (fun d hd => h d (List.Mem.tail _ hd))]
    rfl

theorem findSub_close (l : List Char) (h : ∀ c ∈ l, c ≠ '\x60') :
    findSub ('\x60' :: '\x60' :: '\x60' :: []) (l ++ '\n' :: '\x60' :: '\x60' :: '\x60' :: [])
      = some (l.length + 1) := by
  induction l with
  | nil => rfl
  | cons c rest ih =>
    have hc : ('\x60' == c) = false := by
      have := h c (List.Mem.head _)
      simp [BEq.beq]
      intro hcc
      exact this hcc.symm
    rw [List.cons_append, findSub, cons_isPrefixOf_cons_eq, hc]
    simp only [Bool.false_and, if_false]
    rw [ih (fun d hd => h d (List.Mem.tail _ hd))]
    simp [Nat.add_comm]

theorem fenceWrap_data (t : String) :
    (fenceWrap t).data
      = '\x60' :: '\x60' :: '\x60' :: 'j' :: 's' :: 'o' :: 'n' :: '\n' ::
        (t.data ++ '\n' :: '\x60' :: '\x60' :: '\x60' :: []) := by
  show ("```json\n" ++ t ++ "\n```").data = _
  rw [String.data_append, String.data_append]
  show ['\x60', '\x60', '\x60', 'j', 's', 'o', 'n', '\n'] ++ t.data ++ ['\n', '\x60', '\x60', '\x60'] = _
  simp

theorem trim_wrap (l : List Char) :
    trimChars ('\n' :: (l ++ ['\n'])) = trimChars l := by
  unfold trimChars
  have h1 : List.dropWhile jsWsChar ('\n' :: (l ++ ['\n']))
      = List.dropWhile jsWsChar (l ++ ['\n']) := by
    rw [List.dropWhile_cons]
    simp [jsWsChar]
  rw [h1, List.dropWhile_append]
  by_cases hl : (List.dropWhile jsWsChar l).isEmpty
  · have hl' : List.dropWhile jsWsChar l = [] := by simpa using hl
    simp [hl, hl', List.dropWhile, jsWsChar]
  · simp only [hl, if_false, Bool.false_eq_true]
    rw [List.reverse_append]
    show ((['\n'].reverse ++ _).dropWhile jsWsChar).reverse = _
    rw [List.reverse_singleton]
    show ((('\n' :: []) ++ _).dropWhile jsWsChar).reverse = _
    rw [List.cons_append, List.nil_append, List.dropWhile_cons]
    simp [jsWsChar]

theorem take_fence (l : List Char) :
    ('\n' :: (l ++ '\n' :: '\x60' :: '\x60' :: '\x60' :: [])).take (l.length + 2)
      = '\n' :: (l ++ ['\n']) := by
  have h2 : l.length + 2 = (l.length + 1) + 1 := rfl
  rw [h2, List.take_succ_cons]
  congr 1
  rw [List.take_append]
  simp

theorem fencedCapture_wrap (t : String) (h : ∀ c ∈ t.data, c ≠ '\x60') :
    fencedCapture (fenceWrap t).data = some (trimChars t.data) := by
  rw [fenceWrap_data]
  have hpre : ("```json".data).isPrefixOf
      ('\x60' :: '\x60' :: '\x60' :: 'j' :: 's' :: 'o' :: 'n' :: '\n' ::
        (t.data ++ '\n' :: '\x60' :: '\x60' :: '\x60' :: [])) = true := rfl
  have h0 : findSub ("```json".data)
      ('\x60' :: '\x60' :: '\x60' :: 'j' :: 's' :: 'o' :: 'n' :: '\n' ::
        (t.data ++ '\n' :: '\x60' :: '\x60' :: '\x60' :: [])) = some 0 := by
    rw [findSub, hpre]
    rfl
  unfold fencedCapture
  rw [h0]
  dsimp only
  have hdrop : ('\x60' :: '\x60' :: '\x60' :: 'j' :: 's' :: 'o' :: 'n' :: '\n' ::
      (t.data ++ '\n' :: '\x60' :: '\x60' :: '\x60' :: [])).drop (0 + 7)
      = '\n' :: (t.data ++ '\n' :: '\x60' :: '\x60' :: '\x60' :: []) := rfl
  have hstep : ("```".data).isPrefixOf
      ('\n' :: (t.data ++ '\n' :: '\x60' :: '\x60' :: '\x60' :: [])) = false := rfl
  have h1 : findSub ("```".data) ('\n' :: (t.data ++ '\n' :: '\x60' :: '\x60' :: '\x60' :: []))
      = some (t.data.length + 2) := by
    show findSub ('\x60' :: '\x60' :: '\x60' :: []) _ = _
    rw [findSub, hstep]
    simp only [if_false, Bool.false_eq_true]
    rw [findSub_close t.data h]
    rfl
  rw [hdrop, h1]
  dsimp only
  rw [take_fence, trim_wrap]

theorem selectPayload_raw (t : String) (h : ∀ c ∈ t.data, c ≠ '\x60') :
    selectPayload t.data = trimChars t.data := by
  unfold selectPayload fencedCapture
  have hnone : findSub ("```json".data) t.data = none := by
    show findSub ('\x60' :: "``json".data) t.data = none
    exact findSub_btick_none _ _ h
  rw [hnone]

theorem trim_fence (t : String) :
    trimChars (fenceWrap t).data = (fenceWrap t).data := by
  rw [fenceWrap_data]
  have hsplit : '\x60' :: '\x60' :: '\x60' :: 'j' :: 's' :: 'o' :: 'n' :: '\n' ::
        (t.data ++ '\n' :: '\x60' :: '\x60' :: '\x60' :: [])
      = ('\x60' :: '\x60' :: '\x60' :: 'j' :: 's' :: 'o' :: 'n' :: '\n' ::
        (t.data ++ '\n' :: '\x60' :: '\x60' :: [])) ++ ['\x60'] := by
    simp
  unfold trimChars
  have h1 : List.dropWhile jsWsChar ('\x60' :: '\x60' :: '\x60' :: 'j' :: 's' :: 'o' :: 'n' :: '\n' ::
        (t.data ++ '\n' :: '\x60' :: '\x60' :: '\x60' :: []))
      = '\x60' :: '\x60' :: '\x60' :: 'j' :: 's' :: 'o' :: 'n' :: '\n' ::
        (t.data ++ '\n' :: '\x60' :: '\x60' :: '\x60' :: []) := by
    rw [List.dropWhile_cons]
    simp [jsWsChar]
  rw [h1, hsplit, List.reverse_append]
  rw [List.reverse_singleton, List.singleton_append, List.dropWhile_cons]
  simp only [show jsWsChar '\x60' = false from rfl, Bool.false_eq_true, if_false]
  rw [List.reverse_cons, List.reverse_reverse]

/-! ## Claims -/

/-- Claim C1, amended. The claim asserts that a response carrying a
promptFeedback block reason always fails extraction with the
content-blocked error, with priority over every part-presence and
finish-reason check, in both the damage-analysis and the repair-preview
extraction. What holds: in `handleImageOnlyApiResponse` (part_004 lines
60-97) the block check does take precedence — for every response whose
`promptFeedback?.blockReason` is truthy, the handler fails with the
blocked message naming that reason, whatever parts, finish reason or text
the response carries. The extraction paths actually used by `App.tsx`
(part_004 lines 258-353 and 361-394) perform no block check at all; see
the counterexample. -/
theorem c1_block_check_precedence (r : GenResponse) (ctx reason : String)
    (hb : r.promptFeedback.bind PromptFeedback.blockReason = some reason)
    (hne : reason.data ≠ []) :
    handleImageOnlyApiResponse r ctx
      = .error (blockedMessage reason (r.promptFeedback.bind PromptFeedback.blockReasonMessage)) := by
  match hpf : r.promptFeedback with
  | none => simp [hpf] at hb
  | some fb =>
    match hbr : fb.blockReason with
    | none => rw [hpf] at hb; simp only [Option.some_bind] at hb; simp [hbr] at hb
    | some reason2 =>
      rw [hpf] at hb
      simp only [Option.some_bind] at hb
      rw [hbr] at hb
      injection hb with hb2
      subst hb2
      have hemp : reason2.data.isEmpty = false := by simpa using hne
      simp [handleImageOnlyApiResponse, hpf, hbr, hemp]

/-- Witness for C1: on the concrete `blockedResponse`, which carries both
an image part and a text part, `handleImageOnlyApiResponse` still fails
with the blocked message naming the reason. -/
theorem c1_block_check_precedence_witness :
    blockedResponse.promptFeedback.bind PromptFeedback.blockReason = some "SAFETY"
    ∧ handleImageOnlyApiResponse blockedResponse "repair"
      = .error "Request was blocked. Reason: SAFETY. Blocked for safety reasons." := by
  refine ⟨rfl, ?_⟩
  rw [c1_block_check_precedence blockedResponse "repair" "SAFETY" rfl (by decide)]
  rfl

/-- Counterexample to C1 as stated: `blockedResponse` carries an explicit
block reason, yet the damage-analysis extraction of part_004 lines 258-353
and the repair-preview extraction of lines 361-394 — the ones `App.tsx`
imports — both succeed instead of failing with a content-blocked error. -/
theorem c1_blocked_response_still_extracted :
    handleDamageAnalysisResponse blockedResponse
      = .ok ("data:image/png;base64,AAA", vehicleJsonValue)
    ∧ handleRepairedPreviewResponse blockedResponse = .ok "data:image/png;base64,AAA"
    ∧ blockedResponse.promptFeedback.bind PromptFeedback.blockReason = some "SAFETY" :=
  ⟨rfl, rfl, rfl⟩

/-- Claim C2, amended. The claim asserts that a cost collection containing
an item lacking one of the five required keys (part, damage, suggestion,
costUSD, costRWF) makes the parse fail as a whole, never returning partial
or defaulted items. What holds: `parseCostData` (part_004 lines 28-58)
is fail-closed — whenever the selected payload parses to an array with at
least one item lacking a key, the whole parse fails. The damage-analysis
extraction at part_004 lines 324-346, used by `App.tsx`, performs no
per-item validation and returns such collections unvalidated; see the
counterexample. -/
theorem c2_parseCostData_fail_closed (text : String) (items : List Json)
    (hp : parsedPayload text = some (Json.arr items))
    (hbad : ∃ j ∈ items, hasFiveKeys j = false) :
    parseCostData text = .error (costFormatError text) := by
  obtain ⟨j, hj, hfk⟩ := hbad
  have hne : items.isEmpty = false := by
    cases items with
    | nil => simp at hj
    | cons a l => rfl
  have hall : items.all hasFiveKeys = false := by
    cases h2 : items.all hasFiveKeys
    · rfl
    · exact absurd (List.all_eq_true.mp h2 j hj) (by simp [hfk])
  simp [parseCostData, hp, hne, hall]

/-- Witness for C2: the concrete payload `[{"part":"bumper"}]` parses to a
one-item array lacking four keys, and `parseCostData` rejects it whole. -/
theorem c2_parseCostData_fail_closed_witness :
    parsedPayload missingKeyText = some (Json.arr [Json.obj [("part", Json.str "bumper")]])
    ∧ parseCostData missingKeyText = .error (costFormatError missingKeyText) :=
  ⟨rfl, c2_parseCostData_fail_closed missingKeyText [Json.obj [("part", Json.str "bumper")]] rfl
    ⟨Json.obj [("part", Json.str "bumper")], List.Mem.head _, rfl⟩⟩

/-- Counterexample to C2 as stated: the damage-analysis extraction used by
`App.tsx` (part_004 lines 324-346) accepts a response whose cost
collection contains an item carrying only the `part` key, returning the
collection instead of failing. -/
theorem c2_missing_keys_extracted_unvalidated :
    handleDamageAnalysisResponse unvalidatedCostsResponse
      = .ok ("data:image/png;base64,AAA",
             .obj [("vehicle", .obj [("make", .str "A"), ("model", .str "B"), ("year", .str "2020")]),
                   ("costs", .arr [.obj [("part", .str "bumper")]])])
    ∧ hasFiveKeys (.obj [("part", .str "bumper")]) = false :=
  ⟨rfl, rfl⟩

/-- Claim C3, confirmed. The orchestrator joins the two requests with
`Promise.allSettled`; when exactly one fails, the data of the successful
branch (its image, and for the analysis branch also the vehicle info and
cost list) is still stored in the result state, a non-empty error message
for the failed branch is surfaced, and the failure of one branch never
makes the data of the other branch missing. -/
theorem c3_join_preserves_sibling_data (s : AppState) (imgUrl : String)
    (a : AnalysisSuccess) (rv e : String) :
    ((handleAnalyze s imgUrl (.ok a) (.error e)).annotatedImage = some a.annotatedImage
      ∧ (handleAnalyze s imgUrl (.ok a) (.error e)).costData = some a.analysis.costs
      ∧ (handleAnalyze s imgUrl (.ok a) (.error e)).vehicleInfo = some a.analysis.vehicle
      ∧ (handleAnalyze s imgUrl (.ok a) (.error e)).error
          = some ("Failed to analyze the image. " ++ ("Repair Preview Failed: " ++ e))
      ∧ ("Failed to analyze the image. " ++ ("Repair Preview Failed: " ++ e)) ≠ "")
    ∧ ((handleAnalyze s imgUrl (.error e) (.ok rv)).repairedImage = some rv
      ∧ (handleAnalyze s imgUrl (.error e) (.ok rv)).error
          = some ("Failed to analyze the image. " ++ ("Analysis Failed: " ++ e))
      ∧ ("Failed to analyze the image. " ++ ("Analysis Failed: " ++ e)) ≠ "") := by
  refine ⟨⟨?_, ?_, ?_, ?_, ?_⟩, ⟨?_, ?_, ?_⟩⟩ <;>
    simp [handleAnalyze, handleAnalyzeStart, handleAnalyzeJoin, intercalate_singleton] <;>
    exact append_ne_empty_left _ _ (by decide)

/-- Claim C4, amended. The claim asserts that when exactly one request
fails the view renders the succeeded branch (partial success), the error
view appearing only when the results-view precondition cannot be met.
What holds: the successful data is stored in state, but because the error
check in `renderContent` precedes the results check and a single failure
always sets a combined error, the error view is rendered — never a
partial results view. The results view requires the original-image object
and both truthy generated images and is reached exactly when no error is
set (both requests succeeded). When both requests fail, the two messages
are combined by concatenation with "; ". -/
theorem c4_single_failure_shows_error_view
    (s : AppState) (imgUrl : String) (a : AnalysisSuccess) (rv e1 e2 : String)
    (ha : a.annotatedImage.data ≠ []) (hrv : rv.data ≠ []) :
    renderContent (handleAnalyze s imgUrl (.ok a) (.ok rv))
      = .resultsView imgUrl a.annotatedImage rv (some (a.analysis.costs, a.analysis.vehicle))
    ∧ renderContent (handleAnalyze s imgUrl (.ok a) (.error e2))
      = .errorView ("Failed to analyze the image. " ++ ("Repair Preview Failed: " ++ e2))
    ∧ (handleAnalyze s imgUrl (.ok a) (.error e2)).annotatedImage = some a.annotatedImage
    ∧ renderContent (handleAnalyze s imgUrl (.error e1) (.ok rv))
      = .errorView ("Failed to analyze the image. " ++ ("Analysis Failed: " ++ e1))
    ∧ (handleAnalyze s imgUrl (.error e1) (.ok rv)).repairedImage = some rv
    ∧ (handleAnalyze s imgUrl (.error e1) (.error e2)).error
      = some ("Failed to analyze the image. "
          ++ (("Analysis Failed: " ++ e1) ++ "; " ++ ("Repair Preview Failed: " ++ e2))) := by
  refine ⟨?_, ?_, ?_, ?_, ?_, ?_⟩
  · simp [handleAnalyze, handleAnalyzeStart, handleAnalyzeJoin, renderContent, truthyOS,
      truthyS, ha, hrv]
  · simp [handleAnalyze, handleAnalyzeStart, handleAnalyzeJoin, renderContent, truthyOS,
      intercalate_singleton,
      truthyS_append_left _ _ (by decide : ("Failed to analyze the image. " : String).data ≠ [])]
  · simp [handleAnalyze, handleAnalyzeStart, handleAnalyzeJoin]
  · simp [handleAnalyze, handleAnalyzeStart, handleAnalyzeJoin, renderContent, truthyOS,
      intercalate_singleton,
      truthyS_append_left _ _ (by decide : ("Failed to analyze the image. " : String).data ≠ [])]
  · simp [handleAnalyze, handleAnalyzeStart, handleAnalyzeJoin]
  · simp [handleAnalyze, handleAnalyzeStart, handleAnalyzeJoin, intercalate_pair]

/-- Witness for C4: instantiating the amended claim on a concrete run in
which only the repair-preview request fails. -/
theorem c4_single_failure_shows_error_view_witness :
    sampleAnalysisA.annotatedImage.data ≠ []
    ∧ renderContent (handleAnalyze initialAppState "blob:car" (.ok sampleAnalysisA) (.error "network error"))
      = .errorView ("Failed to analyze the image. " ++ ("Repair Preview Failed: " ++ "network error")) :=
  ⟨by decide,
   (c4_single_failure_shows_error_view initialAppState "blob:car" sampleAnalysisA
     "data:repaired" "e1" "network error" (by decide) (by decide)).2.1⟩

/-- Counterexample to C4 as stated: a submission whose damage analysis
succeeds and whose repair preview fails does not render the succeeded
branch; `renderContent` shows the error view even though the annotated
image is present in the state. -/
theorem c4_partial_success_not_rendered :
    renderContent (handleAnalyze initialAppState "blob:car" (.ok sampleAnalysisA) (.error "network error"))
      = .errorView "Failed to analyze the image. Repair Preview Failed: network error"
    ∧ (handleAnalyze initialAppState "blob:car" (.ok sampleAnalysisA) (.error "network error")).annotatedImage
      = some "data:annotated-A" :=
  ⟨rfl, rfl⟩

/-- Claim C5, confirmed. For every cost list the totals reduce of the
panel computes `totalUSD` as the sum of the `costUSD` fields with absent
values counted as 0, `totalRWF` likewise over `costRWF`, and the empty
list yields totals (0, 0). -/
theorem c5_totals_are_sums (costs : List RepairCost) :
    (computeTotals costs).usd = (costs.map (fun c => c.costUSD.getD 0)).sum
    ∧ (computeTotals costs).rwf = (costs.map (fun c => c.costRWF.getD 0)).sum
    ∧ computeTotals [] = ⟨0, 0⟩ := by
  refine ⟨?_, ?_, rfl⟩ <;> simp [computeTotals_eq]

/-- Claim C6, amended. The claim asserts that for every JSON payload the
fenced and the raw form parse to equal validated objects. What holds:
for every payload containing no backtick character, wrapping it in a
Markdown ```json fence does not change the parse outcome of
`parseCostData` (up to the raw text echoed inside the failure message,
hence the comparison of the extracted values). A payload containing
three consecutive backticks inside a JSON string breaks the round-trip,
because the lazy fenced capture stops at the first closing fence; see the
counterexample. -/
theorem c6_fenced_raw_agree_without_backticks (t : String)
    (h : ∀ c ∈ t.data, c ≠ '\x60') :
    (parseCostData (fenceWrap t)).toOption = (parseCostData t).toOption := by
  by_cases he : (trimChars t.data).isEmpty
  · have h1 : selectPayload (fenceWrap t).data = trimChars (fenceWrap t).data := by
      unfold selectPayload
      rw [fencedCapture_wrap t h]
      simp [he]
    have h2 : parseJsonL (selectPayload (fenceWrap t).data) = none := by
      rw [h1, trim_fence, fenceWrap_data]
      exact parseJsonL_btick_head _
    have h3 : parseJsonL (selectPayload t.data) = none := by
      rw [selectPayload_raw t h]
      have he' : trimChars t.data = [] := by simpa using he
      rw [he']
      rfl
    simp [parseCostData, parsedPayload, h2, h3, Except.toOption]
  · have h1 : selectPayload (fenceWrap t).data = trimChars t.data := by
      unfold selectPayload
      rw [fencedCapture_wrap t h]
      simp [he]
    have h2 : selectPayload t.data = trimChars t.data := selectPayload_raw t h
    unfold parseCostData parsedPayload
    rw [h1, h2]
    cases hp : parseJsonL (trimChars t.data) with
    | none => simp [Except.toOption]
    | some j =>
      cases j with
      | null => simp [Except.toOption]
      | bool b => simp [Except.toOption]
      | num q => simp [Except.toOption]
      | str s => simp [Except.toOption]
      | obj kvs => simp [Except.toOption]
      | arr items =>
        by_cases hc : (!items.isEmpty && !(items.all hasFiveKeys)) = true
        · simp [hc, Except.toOption]
        · simp only [Bool.not_eq_true] at hc
          simp [hc, Except.toOption]

/-- Witness for C6: the backtick-free payload `[]` parses to the same
value fenced and raw. -/
theorem c6_fenced_raw_agree_witness :
    (parseCostData (fenceWrap "[]")).toOption = (parseCostData "[]").toOption :=
  c6_fenced_raw_agree_without_backticks "[]" (by decide)

/-- Counterexample to C6 as stated: `backtickPayload` is a valid cost
payload (its raw parse succeeds), yet its fenced form fails to parse, so
fenced and raw forms do not produce equal results. -/
theorem c6_fenced_raw_differ_on_backticks :
    (parseCostData backtickPayload).toOption.isSome = true
    ∧ (parseCostData (fenceWrap backtickPayload)).toOption = none
    ∧ (parseCostData (fenceWrap backtickPayload)).toOption
        ≠ (parseCostData backtickPayload).toOption := by
  refine ⟨rfl, rfl, ?_⟩
  intro hc
  have hf : (parseCostData (fenceWrap backtickPayload)).toOption.isSome = false := rfl
  have hr : (parseCostData backtickPayload).toOption.isSome = true := rfl
  rw [hc] at hf
  exact Bool.noConfusion (hf.symm.trans hr)

/-- Claim C7, confirmed. Starting from idle with no cached audio: the
first play request enters loading and issues the synthesis request, whose
success moves the session to playing with the fresh audio cached; a
second play request from playing pauses the audio, resets its position to
the start and returns to idle without entering loading and without a
synthesis request; a third play request goes directly to playing,
replaying the cached audio from the start, again without loading or a
second synthesis request. -/
theorem c7_playback_toggle_scenario :
    clickPlayButton { playbackState := .idle, audioPlayer := none }
      = .awaitSynthesis { playbackState := .loading, audioPlayer := none } [.loading]
    ∧ resumeSynthesis { playbackState := .loading, audioPlayer := none } (.ok "blob:audio")
      = ({ playbackState := .playing,
           audioPlayer := some { url := "blob:audio", currentTime := 0, paused := false } },
         [.playing])
    ∧ clickPlayButton
        { playbackState := .playing,
          audioPlayer := some { url := "blob:audio", currentTime := 0, paused := false } }
      = .done
          { playbackState := .idle,
            audioPlayer := some { url := "blob:audio", currentTime := 0, paused := true } }
          [.idle]
    ∧ clickPlayButton
        { playbackState := .idle,
          audioPlayer := some { url := "blob:audio", currentTime := 0, paused := true } }
      = .done
          { playbackState := .playing,
            audioPlayer := some { url := "blob:audio", currentTime := 0, paused := false } }
          [.playing] :=
  ⟨rfl, rfl, rfl, rfl⟩

/-- Claim C8, confirmed. While the session is loading, a play request is
a no-op: the play button is disabled, so a click leaves the session
unchanged, emits no state transition and issues no second synthesis
request (only `PlayStep.awaitSynthesis` issues one). -/
theorem c8_play_click_noop_while_loading (s : NarrationSession)
    (h : s.playbackState = .loading) :
    clickPlayButton s = .done s [] := by
  simp [clickPlayButton, h]

/-- Witness for C8: the loading session with no cached audio. -/
theorem c8_play_click_noop_witness :
    ({ playbackState := .loading, audioPlayer := none } : NarrationSession).playbackState
        = .loading
    ∧ clickPlayButton { playbackState := .loading, audioPlayer := none }
        = .done { playbackState := .loading, audioPlayer := none } [] :=
  ⟨rfl, c8_play_click_noop_while_loading { playbackState := .loading, audioPlayer := none } rfl⟩

/-- Claim C9, amended. The claim asserts that results of a stale
submission are discarded and never overwrite the state of a newer
submission. What holds is the opposite: `handleAnalyze` carries no
generation tag, so the settled-outcomes join overwrites the stored
analysis data unconditionally, whatever state — including a newer
submission's results — it finds; only the synchronous prelude is atomic.
A stale join that runs after the newer one therefore replaces the newer
data; see the counterexample for the concrete interleaving. -/
theorem c9_join_overwrites_unconditionally (s : AppState)
    (a : AnalysisSuccess) (rv : String) :
    (handleAnalyzeJoin s (.ok a) (.ok rv)).annotatedImage = some a.annotatedImage
    ∧ (handleAnalyzeJoin s (.ok a) (.ok rv)).costData = some a.analysis.costs
    ∧ (handleAnalyzeJoin s (.ok a) (.ok rv)).vehicleInfo = some a.analysis.vehicle
    ∧ (handleAnalyzeJoin s (.ok a) (.ok rv)).repairedImage = some rv := by
  refine ⟨?_, ?_, ?_, ?_⟩ <;> simp [handleAnalyzeJoin]

/-- Counterexample to C9 as stated: in the interleaving where submission A
starts, submission B starts, the requests of B settle, and the stale
requests of A settle last, the final state mixes the original image of B
with the analysis results of A — the stale results overwrote the newer
submission's data. -/
theorem c9_stale_results_overwrite_newer :
    staleOverwriteFinal.originalImage = some "blob:carB"
    ∧ staleOverwriteFinal.annotatedImage = some "data:annotated-A"
    ∧ staleOverwriteFinal.annotatedImage ≠ some "data:annotated-B"
    ∧ staleOverwriteFinal.repairedImage = some "data:repaired-A"
    ∧ staleOverwriteFinal.costData = some sampleAnalysisA.analysis.costs := by
  refine ⟨rfl, rfl, ?_, rfl, rfl⟩
  decide

/-- Claim C10, confirmed. For every non-empty cost list in which every
item carries a numeric `costUSD`, the closing narration total —
`Math.round` of the undefaulted `reduce` in `generateDiagnosisSummary` —
equals `Math.round` of the aggregator total `computeTotals`, which
defaults missing values to 0; under the all-numeric hypothesis the two
sums coincide exactly. -/
theorem c10_narration_total_matches_aggregator (costs : List RepairCost)
    (_hne : costs ≠ [])
    (h : ∀ c ∈ costs, c.costUSD.isSome) :
    (diagTotalCost costs).map jsRound = some (jsRound ((computeTotals costs).usd)) := by
  rw [diagTotalCost, diagTotal_foldl_eq costs 0 h, computeTotals_eq]
  simp

/-- Witness for C10: on the one-item bumper list of the specification
scenario, both rounded totals are 500. -/
theorem c10_narration_total_witness :
    bumperCostList ≠ []
    ∧ (∀ c ∈ bumperCostList, c.costUSD.isSome)
    ∧ (diagTotalCost bumperCostList).map jsRound = some 500 := by
  refine ⟨by simp [bumperCostList], by simp [bumperCostList], ?_⟩
  rw [c10_narration_total_matches_aggregator bumperCostList
    (by simp [bumperCostList]) (by simp [bumperCostList])]
  rw [computeTotals_eq]
  simp [bumperCostList, jsRound]
  norm_num
